import Mathlib

/-!
Shallow embedding of the loan-assessment pipeline of this repository.

Part A models the community-spark LangGraph pipeline
(`src/community-spark/app`): the deterministic score bounds and the
hybrid LLM scoring of `app/utils/gemini_helper.py`, the four workflow
nodes (`auditor_node`, `impact_node`, `compliance_node`, `coach_node`),
and the routing of `app/graph.py`.

Part B models the Backend orchestrator
(`src/Backend/app/agents/orchestrator/orchestrator.py`) and the risk
assessor rule validation (`src/Backend/app/agents/risk_assessor/agent.py`).

Conventions: Python floats are modelled as rationals, Python ints as
integers.  Non-deterministic external calls (the Gemini client, the
geocoder, community-data lookup) are modelled as explicit parameters
holding the outcome of the call.  Free-text message strings that no
control flow depends on (prompt text, human-readable summaries and
rationales, log messages) are elided from records; the structured
fields that decisions and routing read are kept exactly as in the
source.
-/

/-- Python `int()` applied to a float: truncation toward zero. -/
def pyInt (q : ℚ) : ℤ := if 0 ≤ q then ⌊q⌋ else ⌈q⌉

/-- Python `round(x)`: round half to even, returning an integer. -/
def pyRound (q : ℚ) : ℤ :=
  let f := ⌊q⌋
  let frac := q - f
  if frac < 1/2 then f
  else if 1/2 < frac then f + 1
  else if f % 2 = 0 then f else f + 1

/-- Python `round(x, 2)`: round half to even at two decimal places. -/
def round2 (q : ℚ) : ℚ := (pyRound (q * 100) : ℚ) / 100

/-- Substring test on character lists. -/
def listContains (needle : List Char) : List Char → Bool
  | [] => needle.isEmpty
  | c :: t => needle.isPrefixOf (c :: t) || listContains needle t

/-- Python `needle in hay` on strings. -/
def strContains (hay needle : String) : Bool := listContains needle.data hay.data

/-- Python `any(x in s.lower() for x in xs)`. -/
def anyTypeMatch (xs : List String) (s : String) : Bool :=
  xs.any (fun x => strContains s.toLower x)

/-! ## Part A: community-spark data model -/

/-- The `bank_data` dict as read by `auditor_node` and
`llm_audit_decision`; every read in the source uses `.get(key, default)`
with the defaults recorded here, so a missing key and a key holding the
default are indistinguishable and the record is total. -/
structure BankData where
  avg_monthly_revenue : ℚ := 0
  revenue_months : ℤ := 0
  volatility : ℚ := 1
  nsf_count : ℤ := 0
  debt_to_income : ℚ := 0
  traditional_credit_score : ℤ := 0
deriving DecidableEq

/-- The `business_profile` dict as read by `impact_node` and
`llm_impact_decision`.  The alternate coordinate keys `lat`/`lng`/`lon`
of the source are collapsed into `latitude`/`longitude`. -/
structure BusinessProfile where
  type : String := "unknown"
  nearest_competitor_miles : ℚ := 999
  hires_locally : Bool := false
  latitude : Option ℚ := none
  longitude : Option ℚ := none
  address : Option String := none
  formatted_address : Option String := none
deriving DecidableEq

/-- Community metrics returned by `lookup_community_metrics`, with the
`.get` defaults of the call sites. -/
structure CommunityMetrics where
  low_income_area : Bool := false
  food_desert : Bool := false
  local_hiring_rate : ℚ := 1/2
  nearest_grocery_miles : ℚ := 1
  nearest_pharmacy_miles : ℚ := 4/5
deriving DecidableEq

/-- Outcome of one advisory (LLM) call followed by JSON decoding:
the call or the decode raised (`err`), the decoded object lacks the
score key (`missing`), or it holds a numeric value (`value`). -/
inductive LLMResponse (α : Type) where
  | err : LLMResponse α
  | missing : LLMResponse α
  | value (v : α) : LLMResponse α
deriving DecidableEq

/-- Deterministic audit score bounds of `llm_audit_decision`
(gemini_helper.py lines 470-482). -/
def auditBounds (bd : BankData) : ℤ × ℤ :=
  if bd.avg_monthly_revenue = 0 ∨ bd.revenue_months = 0 then (1, 35)
  else if bd.avg_monthly_revenue < 1000 then (20, 50)
  else if 2 ≤ bd.nsf_count then (25, 55)
  else if bd.revenue_months < 3 then (30, 60)
  else if bd.revenue_months < 6 then (35, 70)
  else (40, 100)

/-- Deterministic flags of `llm_audit_decision`
(gemini_helper.py lines 451-468). -/
def auditFlags (bd : BankData) : List String :=
  (if bd.avg_monthly_revenue = 0 ∨ bd.revenue_months = 0 then ["no_revenue_data"]
   else if bd.avg_monthly_revenue < 1000 then ["low_revenue"] else []) ++
  (if bd.revenue_months < 6 ∧ 0 < bd.revenue_months then ["insufficient_revenue_history"] else []) ++
  (if 1/2 < bd.volatility then ["high_volatility"] else []) ++
  (if 2 ≤ bd.nsf_count then ["nsf_occurrences"]
   else if 1 ≤ bd.nsf_count then ["nsf_occurrences"] else []) ++
  (if 1/2 < bd.debt_to_income then ["high_debt_to_income"] else []) ++
  (if bd.traditional_credit_score < 600 then ["low_credit_score"] else [])

/-- Result record of `llm_audit_decision` (reasoning text elided). -/
structure AuditResult where
  auditor_score : ℤ
  flags : List String
  method : String
  deterministic_bounds : ℤ × ℤ
  llm_score : ℤ
deriving DecidableEq

/-- The successful return record of `llm_audit_decision`
(gemini_helper.py lines 540-557): the advisory score clamped into the
deterministic bounds with `max(min_score, min(max_score, llm_score))`. -/
def auditHybridRecord (bank_data : BankData) (llm_score : ℤ) : AuditResult :=
  let b := auditBounds bank_data
  { auditor_score := max b.1 (min b.2 llm_score), flags := auditFlags bank_data,
    method := "hybrid", deterministic_bounds := b, llm_score := llm_score }

/-- `llm_audit_decision` (gemini_helper.py lines 420-561).
`gemini_client` is the availability of the module-level client; `resp`
is the outcome of the generate-and-parse step.  On an unavailable
client or a raised exception the function returns `None`; otherwise the
advisory score (or the midpoint default when the key is absent,
Python `(min_score + max_score) // 2`) is clamped into the bounds. -/
def llm_audit_decision (gemini_client : Bool) (resp : LLMResponse ℤ)
    (bank_data : BankData) : Option AuditResult :=
  if gemini_client = false then none
  else
    match resp with
    | .err => none
    | .missing =>
      let b := auditBounds bank_data
      some (auditHybridRecord bank_data (Int.fdiv (b.1 + b.2) 2))
    | .value v => some (auditHybridRecord bank_data v)

/-- Grocery business keywords of `llm_impact_decision` (line 161). -/
def gemGroceryTypes : List String := ["grocery", "supermarket", "food", "market"]

/-- Pharmacy business keywords of `llm_impact_decision` (line 166). -/
def gemPharmacyTypes : List String := ["pharmacy", "drugstore", "health"]

/-- Deterministic base community multiplier of `llm_impact_decision`
(gemini_helper.py lines 150-184), written as a sum of the same guarded
increments the source applies sequentially. -/
def impactBase (bp : BusinessProfile) (cm : CommunityMetrics) : ℚ :=
  let m1 : ℚ := 1
  let m2 : ℚ := if cm.low_income_area then m1 + 2/10 else m1
  let m3 : ℚ := if cm.food_desert then m2 + 2/10 else m2
  let m4 : ℚ :=
    if anyTypeMatch gemGroceryTypes bp.type && decide (5 ≤ cm.nearest_grocery_miles)
    then m3 + 1/10 else m3
  let m5 : ℚ :=
    if anyTypeMatch gemPharmacyTypes bp.type && decide (5 ≤ cm.nearest_pharmacy_miles)
    then m4 + 1/10 else m4
  let m6 : ℚ := if 3/5 ≤ cm.local_hiring_rate then m5 + 1/20 else m5
  let m7 : ℚ := if bp.hires_locally then m6 + 3/20 else m6
  if 10 < bp.nearest_competitor_miles then m7 + 3/20
  else if 5 < bp.nearest_competitor_miles then m7 + 1/10 else m7

/-- The `applied_factors` list accumulated alongside `impactBase`
(gemini_helper.py lines 151-184). -/
def impactFactors (bp : BusinessProfile) (cm : CommunityMetrics) : List String :=
  let f1 : List String := if cm.low_income_area then ["low_income_area"] else []
  let f2 : List String := if cm.food_desert then ["food_desert"] else []
  let f3 : List String :=
    if anyTypeMatch gemGroceryTypes bp.type && decide (5 ≤ cm.nearest_grocery_miles)
    then ["grocery_access_gap"] else []
  let f4 : List String :=
    if anyTypeMatch gemPharmacyTypes bp.type && decide (5 ≤ cm.nearest_pharmacy_miles)
    then ["pharmacy_access_gap"] else []
  let f5 : List String := if 3/5 ≤ cm.local_hiring_rate then ["high_local_hiring"] else []
  let f6 : List String := if bp.hires_locally then ["commits_local_hiring"] else []
  let f7 : List String :=
    if 10 < bp.nearest_competitor_miles then ["fills_market_gap"]
    else if 5 < bp.nearest_competitor_miles then ["moderate_competition"] else []
  f1 ++ f2 ++ f3 ++ f4 ++ f5 ++ f6 ++ f7

/-- Multiplier bounds of `llm_impact_decision` (lines 186-187):
`min_multiplier = max(1.0, base - 0.1)`, `max_multiplier = min(1.6, base + 0.15)`. -/
def impactBounds (bp : BusinessProfile) (cm : CommunityMetrics) : ℚ × ℚ :=
  (max 1 (impactBase bp cm - 1/10), min (8/5) (impactBase bp cm + 3/20))

/-- Result record of `llm_impact_decision` (reasoning and bounds-note
text elided). -/
structure ImpactResult where
  community_multiplier : ℚ
  applied_factors : List String
  method : String
  deterministic_base : ℚ
  llm_multiplier : ℚ
deriving DecidableEq

/-- The successful return record of `llm_impact_decision`
(gemini_helper.py lines 250-264): the advisory multiplier clamped with
`max(min_multiplier, min(max_multiplier, llm))` and rounded to two
decimal places. -/
def impactHybridRecord (bp : BusinessProfile) (cm : CommunityMetrics)
    (llm_multiplier : ℚ) : ImpactResult :=
  let b := impactBounds bp cm
  { community_multiplier := round2 (max b.1 (min b.2 llm_multiplier)),
    applied_factors := impactFactors bp cm,
    method := "hybrid", deterministic_base := impactBase bp cm,
    llm_multiplier := llm_multiplier }

/-- `llm_impact_decision` (gemini_helper.py lines 111-268); a missing
key defaults to the deterministic base multiplier. -/
def llm_impact_decision (gemini_client gemini_model : Bool) (resp : LLMResponse ℚ)
    (bp : BusinessProfile) (cm : CommunityMetrics) : Option ImpactResult :=
  if gemini_client = false ∧ gemini_model = false then none
  else
    match resp with
    | .err => none
    | .missing => some (impactHybridRecord bp cm (impactBase bp cm))
    | .value v => some (impactHybridRecord bp cm v)

/-- Final decision categories (state.py: Literal APPROVE / DENY / REFER). -/
inductive Decision where
  | APPROVE
  | DENY
  | REFER
deriving DecidableEq

/-- String form of a decision, as stored in the state dict. -/
def Decision.str : Decision → String
  | .APPROVE => "APPROVE"
  | .DENY => "DENY"
  | .REFER => "REFER"

/-- Loan terms produced by the APPROVE branch of `compliance_node`. -/
structure LoanTerms where
  loan_amount : ℤ
  interest_rate : ℚ
  term_months : ℤ
  monthly_payment : ℤ
deriving DecidableEq

/-- One policy-floor check record of `compliance_node` (free-text
`reason` elided). -/
structure PolicyCheck where
  check : String
  threshold : ℚ
  value : ℚ
  passed : Bool
deriving DecidableEq

/-- The `explain` object returned by `compliance_node`. -/
structure Explain where
  baseline_score : ℤ
  community_multiplier : ℚ
  adjusted_score : ℚ
  policy_floor_checks : List PolicyCheck
  decision_path : String
deriving DecidableEq

/-- One trace-log entry; the structured fields routing and audit read
are kept, free-text `message`/`reasoning` are elided. -/
structure LogEntry where
  agent : String
  step : String
  method : Option String := none
  decision : Option ℤ := none
deriving DecidableEq

/-- Improvement plan of `coach_node`; only the structured fields both
the LLM path and the rule-based fallback path populate identically are
kept (narrative analysis, recommendations and resources elided). -/
structure ImprovementPlan where
  decision : String
  current_score : ℤ
  target_score : ℤ
deriving DecidableEq

/-- The LangGraph state (state.py `CommunitySparkState`).  Output keys
are `Option`-valued because the TypedDict is `total=False`: `none`
models an absent key, and every read site applies the same `.get`
default the source uses. -/
structure SparkState where
  bank_data : BankData
  business_profile : BusinessProfile
  auditor_score : Option ℤ := none
  auditor_flags : Option (List String) := none
  community_multiplier : Option ℚ := none
  final_decision : Option Decision := none
  loan_terms : Option (Option LoanTerms) := none
  explain : Option Explain := none
  improvement_plan : Option ImprovementPlan := none
  log : List LogEntry := []
deriving DecidableEq

/-- The no-revenue-data condition tested throughout the fallback path
of `auditor_node` (auditor.py line 78). -/
def rbNoRev (bd : BankData) : Prop :=
  bd.avg_monthly_revenue = 0 ∨ bd.revenue_months = 0

instance (bd : BankData) : Decidable (rbNoRev bd) := by
  unfold rbNoRev
  infer_instance

/-- `base_score` of the fallback path (auditor.py lines 80, 85). -/
def rbBaseScore (bd : BankData) : ℚ :=
  if rbNoRev bd then
    (if 0 < bd.traditional_credit_score
     then ((bd.traditional_credit_score : ℚ) / 850) * 35 else 20)
  else
    (if 0 < bd.traditional_credit_score
     then ((bd.traditional_credit_score : ℚ) / 850) * 40 else 20)

/-- `revenue_score` of the fallback path (auditor.py lines 81, 88). -/
def rbRevenueScore (bd : BankData) : ℚ :=
  if rbNoRev bd then 0
  else if 0 < bd.revenue_months then min 30 (((bd.revenue_months : ℚ) / 12) * 30) else 0

/-- `volatility_score` of the fallback path (auditor.py lines 82, 91). -/
def rbVolatilityScore (bd : BankData) : ℚ :=
  if rbNoRev bd then 0
  else if 0 < bd.volatility then max 0 (10 - bd.volatility * 10) else 5

/-- `nsf_penalty` (auditor.py line 94). -/
def rbNsfPenalty (bd : BankData) : ℚ := min 10 ((bd.nsf_count : ℚ) * 5)

/-- `dti_penalty` (auditor.py line 97). -/
def rbDtiPenalty (bd : BankData) : ℚ :=
  if 3/10 < bd.debt_to_income
  then min 10 (max 0 ((bd.debt_to_income - 3/10) * 20)) else 0

/-- Rule-based fallback score of `auditor_node`
(auditor.py lines 66-100), used when `llm_audit_decision` returns
`None`. -/
def ruleBasedAuditScore (bd : BankData) : ℤ :=
  max 1 (min 100 (pyInt (rbBaseScore bd + rbRevenueScore bd + rbVolatilityScore bd
    - rbNsfPenalty bd - rbDtiPenalty bd)))

/-- Flags of the rule-based fallback path of `auditor_node`
(auditor.py lines 103-119). -/
def ruleBasedFlags (bd : BankData) : List String :=
  (if bd.avg_monthly_revenue = 0 ∨ bd.revenue_months = 0 then ["no_revenue"]
   else if bd.avg_monthly_revenue < 1000 then ["low_revenue"] else []) ++
  (if bd.revenue_months < 6 ∧ 0 < bd.revenue_months then ["insufficient_revenue_history"] else []) ++
  (if 1/2 < bd.volatility then ["high_revenue_volatility"] else []) ++
  (if 1 ≤ bd.nsf_count then ["nsf_occurrences"] else []) ++
  (if 2 ≤ bd.nsf_count then ["multiple_nsf_occurrences"] else []) ++
  (if 1/2 < bd.debt_to_income then ["high_debt_to_income"] else []) ++
  (if bd.traditional_credit_score < 600 then ["low_traditional_credit_score"] else [])

/-- The partial state update returned by `auditor_node`. -/
structure AuditorOutput where
  auditor_score : ℤ
  auditor_flags : List String
  log : List LogEntry
deriving DecidableEq

/-- `auditor_node` (auditor.py lines 13-153): hybrid result when
`llm_audit_decision` succeeds, rule-based fallback otherwise. -/
def auditor_node (gemini_client : Bool) (resp : LLMResponse ℤ)
    (state : SparkState) : AuditorOutput :=
  match llm_audit_decision gemini_client resp state.bank_data with
  | some r =>
    { auditor_score := r.auditor_score, auditor_flags := r.flags,
      log := state.log ++ [{ agent := "auditor", step := "audit_complete",
                             method := some r.method, decision := some r.auditor_score }] }
  | none =>
    let score := ruleBasedAuditScore state.bank_data
    { auditor_score := score, auditor_flags := ruleBasedFlags state.bank_data,
      log := state.log ++ [{ agent := "auditor", step := "audit_complete",
                             method := some "rule-based", decision := some score }] }

/-- Geocoder result (`geocode_address`), an external call. -/
structure GeoResult where
  lat : ℚ
  lng : ℚ
  formatted_address : String
deriving DecidableEq

/-- Grocery keywords of `impact_node` (impact_analyst.py line 126);
note the extra "retail" entry compared to `gemGroceryTypes`. -/
def nodeGroceryTypes : List String := ["grocery", "supermarket", "food", "market", "retail"]

/-- Pharmacy keywords of `impact_node` (line 133). -/
def nodePharmacyTypes : List String := ["pharmacy", "drugstore", "health"]

/-- Community-focused business types of `impact_node` (line 160). -/
def communityTypes : List String :=
  ["nonprofit", "cooperative", "social_enterprise", "community_center", "food_bank"]

/-- The partial state update returned by `impact_node`; it includes
`business_profile`, which the node hands back (possibly with geocoded
coordinates added). -/
structure ImpactOutput where
  community_multiplier : ℚ
  business_profile : BusinessProfile
  log : List LogEntry
deriving DecidableEq

/-- `impact_node` (impact_analyst.py lines 18-213).  `geocode` is the
outcome of the external `geocode_address` call (`none` covers both a
raised exception and the call never being made); it is consulted only
when the profile lacks coordinates and has an address. -/
def impact_node (geocode : Option GeoResult) (cm : CommunityMetrics)
    (state : SparkState) : ImpactOutput :=
  let bp0 := state.business_profile
  let bp :=
    if bp0.latitude.isSome && bp0.longitude.isSome then bp0
    else
      match bp0.address, geocode with
      | some _, some g =>
        { bp0 with latitude := some g.lat, longitude := some g.lng,
                   formatted_address := some g.formatted_address }
      | _, _ => bp0
  let m1 : ℚ := 1
  let m2 : ℚ := if cm.low_income_area then m1 + 2/10 else m1
  let m3 : ℚ := if cm.food_desert then m2 + 2/10 else m2
  let m4 : ℚ :=
    if anyTypeMatch nodeGroceryTypes bp.type && decide (5 ≤ cm.nearest_grocery_miles)
    then m3 + 1/10 else m3
  let m5 : ℚ :=
    if anyTypeMatch nodePharmacyTypes bp.type && decide (5 ≤ cm.nearest_pharmacy_miles)
    then m4 + 1/10 else m4
  let m6 : ℚ := if 3/5 ≤ cm.local_hiring_rate then m5 + 1/20 else m5
  let m7 : ℚ := if bp.hires_locally then m6 + 3/20 else m6
  let m8 : ℚ :=
    if 10 < bp.nearest_competitor_miles then m7 + 3/20
    else if 5 < bp.nearest_competitor_miles then m7 + 1/10
    else if 2 < bp.nearest_competitor_miles then m7 + 1/20 else m7
  let m9 : ℚ := if communityTypes.contains bp.type.toLower then m8 + 1/10 else m8
  let community_multiplier := round2 (max 1 (min (8/5) m9))
  { community_multiplier := community_multiplier,
    business_profile := bp,
    log := state.log ++ [{ agent := "impact_analyst", step := "impact_analysis_complete" }] }

/-- The partial state update returned by `compliance_node`. -/
structure ComplianceOutput where
  final_decision : Decision
  loan_terms : Option LoanTerms
  explain : Explain
  log : List LogEntry
deriving DecidableEq

/-- Loan-terms generation of the APPROVE branch of `compliance_node`
(compliance_sentry.py lines 149-170). -/
def approveLoanTerms (adjusted_score : ℚ) (avg_monthly_revenue : ℚ) : LoanTerms :=
  let rate_mult : ℚ × ℚ :=
    if 90 ≤ adjusted_score then (13/2, 6/5)
    else if 85 ≤ adjusted_score then (7, 11/10)
    else (15/2, 1)
  let interest_rate := rate_mult.1
  let loan_amount_mult := rate_mult.2
  let base_loan_amount : ℚ :=
    if 0 < avg_monthly_revenue
    then max 10000 (min 100000 (avg_monthly_revenue * 3 * loan_amount_mult))
    else 50000
  let r : ℚ := interest_rate / 100 / 12
  { loan_amount := pyInt base_loan_amount,
    interest_rate := interest_rate,
    term_months := 36,
    monthly_payment :=
      pyInt ((base_loan_amount * r * (1 + r) ^ (36 : ℕ)) / ((1 + r) ^ (36 : ℕ) - 1)) }

/-- `compliance_node` (compliance_sentry.py lines 12-245).
Guardrails: `auditor_score < 40` or `nsf_count >= 2` forces DENY;
otherwise `adjusted_score >= 75` gives APPROVE with loan terms;
otherwise REFER. -/
def compliance_node (state : SparkState) : ComplianceOutput :=
  let auditor_score := state.auditor_score.getD 0
  let community_multiplier := state.community_multiplier.getD 1
  let bank_data := state.bank_data
  let nsf_count := bank_data.nsf_count
  let log := state.log
  let impact_ran := log.any (fun e => e.agent = "impact_analyst")
  let decision_path := if impact_ran then "auditor->impact->compliance" else "auditor->compliance"
  let baseline_score := auditor_score
  let adjusted_score : ℚ := (baseline_score : ℚ) * community_multiplier
  let scoreCheck : PolicyCheck :=
    { check := "auditor_score_floor", threshold := 40, value := (auditor_score : ℚ),
      passed := decide (¬ auditor_score < 40) }
  let nsfCheck : PolicyCheck :=
    { check := "nsf_count_limit", threshold := 2, value := (nsf_count : ℚ),
      passed := decide (¬ 2 ≤ nsf_count) }
  let result : Decision × Option LoanTerms × List PolicyCheck :=
    if auditor_score < 40 ∨ 2 ≤ nsf_count then
      (Decision.DENY, none, [scoreCheck, nsfCheck])
    else if 75 ≤ adjusted_score then
      let approveCheck : PolicyCheck :=
        { check := "adjusted_score_threshold", threshold := 75,
          value := adjusted_score, passed := true }
      (Decision.APPROVE,
       some (approveLoanTerms adjusted_score bank_data.avg_monthly_revenue),
       [scoreCheck, nsfCheck, approveCheck])
    else
      let referCheck : PolicyCheck :=
        { check := "adjusted_score_threshold", threshold := 75,
          value := adjusted_score, passed := false }
      (Decision.REFER, none, [scoreCheck, nsfCheck, referCheck])
  { final_decision := result.1,
    loan_terms := result.2.1,
    explain := { baseline_score := baseline_score,
                 community_multiplier := community_multiplier,
                 adjusted_score := round2 adjusted_score,
                 policy_floor_checks := result.2.2,
                 decision_path := decision_path },
    log := log ++ [{ agent := "compliance_sentry", step := "compliance_check_complete" }] }

/-- The partial state update returned by `coach_node`. -/
structure CoachOutput where
  improvement_plan : ImprovementPlan
  log : List LogEntry
deriving DecidableEq

/-- `coach_node` (coach.py lines 17-74); the Gemini plan and the
rule-based fallback plan agree on the structured fields kept here
(`decision`, `current_score`, `target_score` = 75). -/
def coach_node (state : SparkState) : CoachOutput :=
  let final_decision := (state.final_decision.map Decision.str).getD "UNKNOWN"
  let auditor_score := state.auditor_score.getD 0
  { improvement_plan :=
      { decision := final_decision, current_score := auditor_score, target_score := 75 },
    log := state.log ++ [{ agent := "coach", step := "coaching_complete" }] }

/-- Parameters of one graph run: the availability of the advisory
client, the outcome of its calls, the geocoder outcome, and the
looked-up community metrics. -/
structure RunParams where
  gemini_client : Bool
  audit_resp : LLMResponse ℤ
  geocode : Option GeoResult
  community_metrics : CommunityMetrics
deriving DecidableEq

/-- Merge of the `auditor_node` update into the state (LangGraph merges
the returned dict key by key). -/
def applyAuditor (p : RunParams) (s : SparkState) : SparkState :=
  let o := auditor_node p.gemini_client p.audit_resp s
  { s with auditor_score := some o.auditor_score,
           auditor_flags := some o.auditor_flags,
           log := o.log }

/-- Merge of the `impact_node` update into the state. -/
def applyImpact (p : RunParams) (s : SparkState) : SparkState :=
  let o := impact_node p.geocode p.community_metrics s
  { s with community_multiplier := some o.community_multiplier,
           business_profile := o.business_profile,
           log := o.log }

/-- Merge of the `compliance_node` update into the state. -/
def applyCompliance (s : SparkState) : SparkState :=
  let o := compliance_node s
  { s with final_decision := some o.final_decision,
           loan_terms := some o.loan_terms,
           explain := some o.explain,
           log := o.log }

/-- Merge of the `coach_node` update into the state. -/
def applyCoach (s : SparkState) : SparkState :=
  let o := coach_node s
  { s with improvement_plan := some o.improvement_plan, log := o.log }

/-- `route_after_auditor` (graph.py lines 29-49): `true` means route to
`impact`, `false` directly to `compliance`. -/
def route_after_auditor (s : SparkState) : Bool :=
  s.auditor_score.getD 0 < 60

/-- `route_after_compliance` (graph.py lines 52-72): `true` means route
to `coach`, `false` to `END`. -/
def route_after_compliance (s : SparkState) : Bool :=
  let d := (s.final_decision.map Decision.str).getD "UNKNOWN"
  d = "DENY" ∨ d = "REFER"

/-- Initial run state: inputs plus empty outputs and empty log. -/
def initState (bd : BankData) (bp : BusinessProfile) : SparkState :=
  { bank_data := bd, business_profile := bp }

/-- State after the `auditor` node. -/
def graphS1 (p : RunParams) (bd : BankData) (bp : BusinessProfile) : SparkState :=
  applyAuditor p (initState bd bp)

/-- State after the conditional `impact` node. -/
def graphS2 (p : RunParams) (bd : BankData) (bp : BusinessProfile) : SparkState :=
  if route_after_auditor (graphS1 p bd bp)
  then applyImpact p (graphS1 p bd bp)
  else graphS1 p bd bp

/-- State after the `compliance` node. -/
def graphS3 (p : RunParams) (bd : BankData) (bp : BusinessProfile) : SparkState :=
  applyCompliance (graphS2 p bd bp)

/-- Full run of the compiled graph (graph.py `build_graph`):
auditor, conditionally impact, compliance, conditionally coach. -/
def runGraph (p : RunParams) (bd : BankData) (bp : BusinessProfile) : SparkState :=
  if route_after_compliance (graphS3 p bd bp)
  then applyCoach (graphS3 p bd bp)
  else graphS3 p bd bp

/-! ## Part B: Backend orchestrator and risk assessor -/

/-- Outcome of one awaited stage: a result record, or a raised
exception (its message). -/
inductive StageOutcome (α : Type) where
  | ok (v : α) : StageOutcome α
  | exn (msg : String) : StageOutcome α
deriving DecidableEq

/-- Financial-analysis record, restricted to the fields the risk rules
and the orchestrator defaults read (source key `debt_to_income_ratio`
is named `debt_to_income` here); remaining numeric/narrative fields of
the dict are elided.  `.get` defaults of the rule reads are folded into
the field values. -/
structure FinancialResults where
  success : Bool
  error : Option String := none
  debt_to_income : ℚ := 0
  income_stability_score : ℚ := 0
  overdraft_count : ℤ := 0
  financial_health_score : ℚ := 0
deriving DecidableEq

/-- Market-analysis record, restricted to the fields read downstream. -/
structure MarketResults where
  success : Bool
  error : Option String := none
  viability_score : ℚ := 0
deriving DecidableEq

/-- `Orchestrator._get_default_financial_results` (lines 204-229):
all numeric fields zero. -/
def defaultFinancialResults (e : String) : FinancialResults :=
  { success := false, error := some e }

/-- `Orchestrator._get_default_market_results` (lines 231-252):
`viability_score` 50. -/
def defaultMarketResults (e : String) : MarketResults :=
  { success := false, error := some e, viability_score := 50 }

/-- `key_factors` sub-record of an assessment. -/
structure KeyFactors where
  financial_score : ℚ
  market_score : ℚ
  overall_score : ℚ
deriving DecidableEq

/-- A fully populated assessment dict (after `_validate_assessment`). -/
structure Assessment where
  eligibility : String
  confidence_score : ℚ
  risk_level : String
  reasoning : String
  recommendations : List String
  key_factors : KeyFactors
deriving DecidableEq

/-- The assessment object proposed by the advisory model (structured
output or parsed text): any subset of the keys may be present. -/
structure AssessmentProposal where
  eligibility : Option String := none
  confidence_score : Option ℚ := none
  risk_level : Option String := none
  reasoning : Option String := none
  recommendations : Option (List String) := none
  key_factors : Option KeyFactors := none
deriving DecidableEq

/-- Field-filling part of `RiskAssessor._validate_assessment`
(agent.py lines 232-263): missing keys get defaults; missing
`key_factors` are computed from the stage data (dict default 50 for a
missing score key is folded into the record field). -/
def validateAssessment (p : AssessmentProposal) (fin : FinancialResults)
    (mkt : MarketResults) : Assessment :=
  { eligibility := p.eligibility.getD "review",
    confidence_score := p.confidence_score.getD 50,
    risk_level := p.risk_level.getD "medium",
    reasoning := p.reasoning.getD "Assessment completed",
    recommendations := p.recommendations.getD [],
    key_factors := p.key_factors.getD
      { financial_score := fin.financial_health_score,
        market_score := mkt.viability_score,
        overall_score := (fin.financial_health_score + mkt.viability_score) / 2 } }

/-- Critical rejection rule (agent.py lines 299-303): DTI above 60
forces `denied`/`high`. -/
def ruleCriticalDTI (fin : FinancialResults) (a : Assessment) : Assessment :=
  if 60 < fin.debt_to_income then
    { a with eligibility := "denied", risk_level := "high",
             reasoning :=
               if strContains a.reasoning "Debt-to-income ratio exceeds 60%" then a.reasoning
               else a.reasoning ++ " Critical: Debt-to-income ratio exceeds 60%." }
  else a

/-- Overdraft rule (agent.py lines 305-310). -/
def ruleOverdrafts (fin : FinancialResults) (a : Assessment) : Assessment :=
  if 5 < fin.overdraft_count then
    { a with risk_level := "high",
             eligibility := if a.eligibility = "approved" then "review" else a.eligibility,
             reasoning :=
               if strContains a.reasoning "Multiple overdrafts" then a.reasoning
               else a.reasoning ++ " Concern: Multiple overdrafts detected." }
  else a

/-- Income-stability rule (agent.py lines 312-315). -/
def ruleIncomeStability (fin : FinancialResults) (a : Assessment) : Assessment :=
  if fin.income_stability_score < 30 then
    { a with risk_level := "high",
             eligibility := if a.eligibility = "approved" then "review" else a.eligibility }
  else a

/-- Strong-approval rule (agent.py lines 317-322). -/
def ruleStrongApproval (fin : FinancialResults) (mkt : MarketResults)
    (a : Assessment) : Assessment :=
  if 75 ≤ fin.financial_health_score ∧ 70 ≤ mkt.viability_score
     ∧ fin.debt_to_income < 30 ∧ fin.overdraft_count = 0 then
    (if a.eligibility = "review"
     then { a with eligibility := "approved", risk_level := "low" } else a)
  else a

/-- Consistency rule (agent.py lines 324-326). -/
def ruleDeniedNotLow (a : Assessment) : Assessment :=
  if a.eligibility = "denied" ∧ a.risk_level = "low"
  then { a with risk_level := "high" } else a

/-- Consistency rule (agent.py lines 328-329). -/
def ruleApprovedNotHigh (a : Assessment) : Assessment :=
  if a.eligibility = "approved" ∧ a.risk_level = "high"
  then { a with eligibility := "review" } else a

/-- `RiskAssessor._apply_business_rules` (agent.py lines 274-331):
the six rules in source order. -/
def applyBusinessRules (fin : FinancialResults) (mkt : MarketResults)
    (a : Assessment) : Assessment :=
  ruleApprovedNotHigh
    (ruleDeniedNotLow
      (ruleStrongApproval fin mkt
        (ruleIncomeStability fin
          (ruleOverdrafts fin
            (ruleCriticalDTI fin a)))))

/-- Result of `RiskAssessor.assess`: the `success` flag plus the
assessment fields the source splices in with `**assessment`. -/
structure RiskResults where
  success : Bool
  error : Option String := none
  assessment : Assessment
deriving DecidableEq

/-- The safe default assessment of the `except` branch of
`RiskAssessor.assess` (agent.py lines 124-137). -/
def assessErrorResult (e : String) : RiskResults :=
  { success := false, error := some e,
    assessment :=
      { eligibility := "review", confidence_score := 0, risk_level := "high",
        reasoning := "Error during assessment: " ++ e,
        recommendations := ["Manual review required due to system error"],
        key_factors := { financial_score := 0, market_score := 0, overall_score := 0 } } }

/-- `RiskAssessor.assess` (agent.py lines 52-137).  `proposal` is the
outcome of the advisory step (structured output, or the parser result
including its manual-review default on parse failure); on a raised
exception the safe default is returned, otherwise the proposal is
validated and the business rules applied. -/
def assess (proposal : StageOutcome AssessmentProposal) (fin : FinancialResults)
    (mkt : MarketResults) : RiskResults :=
  match proposal with
  | .exn e => assessErrorResult e
  | .ok p =>
    { success := true,
      assessment := applyBusinessRules fin mkt (validateAssessment p fin mkt) }

/-- `Orchestrator._get_default_risk_results` (lines 254-277). -/
def defaultRiskResults (e : String) : RiskResults :=
  { success := false, error := some e,
    assessment :=
      { eligibility := "review", confidence_score := 0, risk_level := "high",
        reasoning := "System error during assessment: " ++ e,
        recommendations := ["Manual review required due to system error"],
        key_factors := { financial_score := 0, market_score := 0, overall_score := 0 } } }

/-- The aggregated payload returned by `Orchestrator.run_assessment`
(metadata elided; `final_assessment` is `Option`-valued to express that
a missing or `None` field would be representable). -/
structure Payload where
  success : Bool
  error : Option String := none
  financial_metrics : FinancialResults
  market_analysis : MarketResults
  final_assessment : Option RiskResults
  recommendations : List String
deriving DecidableEq

/-- `Orchestrator.run_assessment` (orchestrator.py lines 46-202).
`finO`/`mktO` are the outcomes of the two parallel stages gathered with
`return_exceptions=True`; `proposal` feeds `RiskAssessor.assess`
(which swallows its own exceptions); `coachO` is the recommendation
stage outcome; `orchError` models any other exception reaching the
outer `except`, which substitutes all three default records. -/
def run_assessment (finO : StageOutcome FinancialResults)
    (mktO : StageOutcome MarketResults)
    (proposal : StageOutcome AssessmentProposal)
    (coachO : StageOutcome (List String))
    (orchError : Option String) : Payload :=
  match orchError with
  | some e =>
    { success := false, error := some e,
      financial_metrics := defaultFinancialResults e,
      market_analysis := defaultMarketResults e,
      final_assessment := some (defaultRiskResults e),
      recommendations := [] }
  | none =>
    let financial_results :=
      match finO with
      | .ok v => v
      | .exn e => defaultFinancialResults e
    let market_results :=
      match mktO with
      | .ok v => v
      | .exn e => defaultMarketResults e
    let risk_results := assess proposal financial_results market_results
    let recommendations :=
      match coachO with
      | .ok r => r
      | .exn _ => []
    { success := true,
      financial_metrics := financial_results,
      market_analysis := market_results,
      final_assessment := some risk_results,
      recommendations := recommendations }

/-! ## Helper lemmas -/

theorem pyInt_le {q : ℚ} {n : ℤ} (h : q ≤ (n : ℚ)) : pyInt q ≤ n := by
  unfold pyInt
  split
  · exact_mod_cast le_trans (Int.floor_le q) h
  · exact Int.ceil_le.mpr h

theorem le_pyInt {q : ℚ} {n : ℤ} (h : (n : ℚ) ≤ q) : n ≤ pyInt q := by
  unfold pyInt
  split
  · exact Int.le_floor.mpr h
  · exact_mod_cast le_trans h (Int.le_ceil q)

theorem pyRound_le (q : ℚ) : (pyRound q : ℚ) ≤ q + 1/2 := by
  have hf := Int.floor_le q
  have hf1 := Int.lt_floor_add_one q
  simp only [pyRound]
  split_ifs with h1 h2 h3 <;> push_cast <;> linarith

theorem le_pyRound (q : ℚ) : q - 1/2 ≤ (pyRound q : ℚ) := by
  have hf := Int.floor_le q
  have hf1 := Int.lt_floor_add_one q
  simp only [pyRound]
  split_ifs with h1 h2 h3 <;> push_cast <;> linarith

theorem round2_le_div {x : ℚ} {k : ℤ} (h : x ≤ (k : ℚ)/100) : round2 x ≤ (k : ℚ)/100 := by
  unfold round2
  have h1 := pyRound_le (x * 100)
  have h2 : pyRound (x * 100) ≤ k := by
    by_contra hc
    push_neg at hc
    have hc' : (k : ℚ) + 1 ≤ (pyRound (x * 100) : ℚ) := by exact_mod_cast hc
    linarith
  have h3 : (pyRound (x * 100) : ℚ) ≤ (k : ℚ) := by exact_mod_cast h2
  linarith

theorem div_le_round2 {x : ℚ} {k : ℤ} (h : (k : ℚ)/100 ≤ x) : (k : ℚ)/100 ≤ round2 x := by
  unfold round2
  have h1 := le_pyRound (x * 100)
  have h2 : k ≤ pyRound (x * 100) := by
    by_contra hc
    push_neg at hc
    have hc' : (pyRound (x * 100) : ℚ) + 1 ≤ (k : ℚ) := by exact_mod_cast hc
    linarith
  have h3 : (k : ℚ) ≤ (pyRound (x * 100) : ℚ) := by exact_mod_cast h2
  linarith

/-- The value is an integer multiple of one twentieth. -/
def Grid20 (q : ℚ) : Prop := ∃ j : ℤ, q = (j : ℚ)/20

theorem grid20_if_add {c : Prop} [Decidable c] {m x : ℚ} (h : Grid20 m)
    (j : ℤ) (hx : x = (j : ℚ)/20) : Grid20 (if c then m + x else m) := by
  obtain ⟨i, hi⟩ := h
  split
  · exact ⟨i + j, by rw [hi, hx]; push_cast; ring⟩
  · exact ⟨i, hi⟩

theorem grid20_if3 {c c' : Prop} [Decidable c] [Decidable c'] {m x y : ℚ}
    (h : Grid20 m) (j j' : ℤ) (hx : x = (j : ℚ)/20) (hy : y = (j' : ℚ)/20) :
    Grid20 (if c then m + x else if c' then m + y else m) := by
  obtain ⟨i, hi⟩ := h
  split
  · exact ⟨i + j, by rw [hi, hx]; push_cast; ring⟩
  · split
    · exact ⟨i + j', by rw [hi, hy]; push_cast; ring⟩
    · exact ⟨i, hi⟩

theorem grid20_max {a b : ℚ} (ha : Grid20 a) (hb : Grid20 b) : Grid20 (max a b) := by
  rcases max_choice a b with h | h <;> rw [h] <;> assumption

theorem grid20_min {a b : ℚ} (ha : Grid20 a) (hb : Grid20 b) : Grid20 (min a b) := by
  rcases min_choice a b with h | h <;> rw [h] <;> assumption

theorem impactBase_grid (bp : BusinessProfile) (cm : CommunityMetrics) :
    Grid20 (impactBase bp cm) := by
  simp only [impactBase]
  exact grid20_if3
    (grid20_if_add
      (grid20_if_add
        (grid20_if_add
          (grid20_if_add
            (grid20_if_add
              (grid20_if_add ⟨20, by norm_num⟩ 4 (by norm_num))
              4 (by norm_num))
            2 (by norm_num))
          2 (by norm_num))
        1 (by norm_num))
      3 (by norm_num))
    3 2 (by norm_num) (by norm_num)

theorem impactMin_grid (bp : BusinessProfile) (cm : CommunityMetrics) :
    Grid20 (impactBounds bp cm).1 := by
  obtain ⟨j, hj⟩ := impactBase_grid bp cm
  unfold impactBounds
  exact grid20_max ⟨20, by norm_num⟩ ⟨j - 2, by rw [hj]; push_cast; ring⟩

theorem impactMax_grid (bp : BusinessProfile) (cm : CommunityMetrics) :
    Grid20 (impactBounds bp cm).2 := by
  obtain ⟨j, hj⟩ := impactBase_grid bp cm
  unfold impactBounds
  exact grid20_min ⟨32, by norm_num⟩ ⟨j + 3, by rw [hj]; push_cast; ring⟩

theorem grid20_to100 {q : ℚ} (h : Grid20 q) : ∃ k : ℤ, q = (k : ℚ)/100 := by
  obtain ⟨j, hj⟩ := h
  exact ⟨5 * j, by rw [hj]; push_cast; ring⟩

theorem auditBounds_le (bd : BankData) : (auditBounds bd).1 ≤ (auditBounds bd).2 := by
  unfold auditBounds
  split_ifs <;> norm_num

theorem auditHybridRecord_ge (bd : BankData) (l : ℤ) :
    (auditBounds bd).1 ≤ (auditHybridRecord bd l).auditor_score :=
  le_max_left _ _

theorem auditHybridRecord_le (bd : BankData) (l : ℤ) :
    (auditHybridRecord bd l).auditor_score ≤ (auditBounds bd).2 :=
  max_le (auditBounds_le bd) (min_le_left _ _)

theorem llm_audit_some_inv {c : Bool} {resp : LLMResponse ℤ} {bd : BankData}
    {r : AuditResult} (h : llm_audit_decision c resp bd = some r) :
    ∃ l, r = auditHybridRecord bd l := by
  cases c
  · simp [llm_audit_decision] at h
  · cases resp with
    | err => simp [llm_audit_decision] at h
    | missing =>
      simp only [llm_audit_decision] at h
      simp +decide at h
      exact ⟨_, h.symm⟩
    | value v =>
      simp only [llm_audit_decision] at h
      simp +decide at h
      exact ⟨v, h.symm⟩

theorem llm_impact_some_inv {c m : Bool} {resp : LLMResponse ℚ}
    {bp : BusinessProfile} {cm : CommunityMetrics} {r : ImpactResult}
    (h : llm_impact_decision c m resp bp cm = some r) :
    ∃ l, r = impactHybridRecord bp cm l := by
  rcases resp with _ | _ | v <;> cases c <;> cases m <;>
    simp +decide [llm_impact_decision] at h <;>
    exact ⟨_, h.symm⟩

theorem impactHybrid_ge (bp : BusinessProfile) (cm : CommunityMetrics) (l : ℚ) :
    (impactBounds bp cm).1 ≤ (impactHybridRecord bp cm l).community_multiplier := by
  obtain ⟨kmin, hkmin⟩ := grid20_to100 (impactMin_grid bp cm)
  have h1 : (kmin : ℚ)/100 ≤ max (impactBounds bp cm).1 (min (impactBounds bp cm).2 l) := by
    rw [← hkmin]
    exact le_max_left _ _
  have h2 := div_le_round2 h1
  show (impactBounds bp cm).1 ≤ round2 _
  calc (impactBounds bp cm).1 = (kmin : ℚ)/100 := hkmin
    _ ≤ _ := h2

theorem impactHybrid_le (bp : BusinessProfile) (cm : CommunityMetrics) (l : ℚ)
    (hb : (impactBounds bp cm).1 ≤ (impactBounds bp cm).2) :
    (impactHybridRecord bp cm l).community_multiplier ≤ (impactBounds bp cm).2 := by
  obtain ⟨kmax, hkmax⟩ := grid20_to100 (impactMax_grid bp cm)
  have h1 : max (impactBounds bp cm).1 (min (impactBounds bp cm).2 l) ≤ (kmax : ℚ)/100 := by
    rw [← hkmax]
    exact max_le hb (min_le_left _ _)
  have h2 := round2_le_div h1
  show round2 _ ≤ (impactBounds bp cm).2
  calc round2 _ ≤ (kmax : ℚ)/100 := h2
    _ = (impactBounds bp cm).2 := hkmax.symm

theorem auditBounds_noRev {bd : BankData} (h : rbNoRev bd) : auditBounds bd = (1, 35) := by
  have h' : bd.avg_monthly_revenue = 0 ∨ bd.revenue_months = 0 := h
  unfold auditBounds
  rw [if_pos h']

theorem rbBaseScore_le35 {bd : BankData} (hrev : rbNoRev bd)
    (htcs : bd.traditional_credit_score ≤ 850) : rbBaseScore bd ≤ 35 := by
  unfold rbBaseScore
  rw [if_pos hrev]
  split_ifs with h
  · have h850 : (bd.traditional_credit_score : ℚ) ≤ 850 := by exact_mod_cast htcs
    linarith
  · norm_num

theorem rbNsfPenalty_nonneg {bd : BankData} (hnsf : 0 ≤ bd.nsf_count) :
    0 ≤ rbNsfPenalty bd := by
  unfold rbNsfPenalty
  have h : (0 : ℚ) ≤ (bd.nsf_count : ℚ) := by exact_mod_cast hnsf
  exact le_min (by norm_num) (by linarith)

theorem rbDtiPenalty_nonneg (bd : BankData) : 0 ≤ rbDtiPenalty bd := by
  unfold rbDtiPenalty
  split
  · exact le_min (by norm_num) (le_max_left _ _)
  · exact le_refl _

theorem ruleBasedAuditScore_le35 {bd : BankData} (hrev : rbNoRev bd)
    (hnsf : 0 ≤ bd.nsf_count) (htcs : bd.traditional_credit_score ≤ 850) :
    ruleBasedAuditScore bd ≤ 35 := by
  unfold ruleBasedAuditScore
  have hb := rbBaseScore_le35 hrev htcs
  have hr : rbRevenueScore bd = 0 := by unfold rbRevenueScore; rw [if_pos hrev]
  have hv : rbVolatilityScore bd = 0 := by unfold rbVolatilityScore; rw [if_pos hrev]
  have hn := rbNsfPenalty_nonneg hnsf
  have hd := rbDtiPenalty_nonneg bd
  have hq : rbBaseScore bd + rbRevenueScore bd + rbVolatilityScore bd
      - rbNsfPenalty bd - rbDtiPenalty bd ≤ ((35 : ℤ) : ℚ) := by
    rw [hr, hv]
    push_cast
    linarith
  have hp := pyInt_le hq
  exact max_le (by norm_num) (le_trans (min_le_right _ _) hp)

theorem ruleBasedAuditScore_mem (bd : BankData) :
    1 ≤ ruleBasedAuditScore bd ∧ ruleBasedAuditScore bd ≤ 100 :=
  ⟨le_max_left _ _, max_le (by norm_num) (min_le_left _ _)⟩

theorem auditor_node_score_le35 {c : Bool} {resp : LLMResponse ℤ} {s : SparkState}
    (hrev : rbNoRev s.bank_data) (hnsf : 0 ≤ s.bank_data.nsf_count)
    (htcs : s.bank_data.traditional_credit_score ≤ 850) :
    (auditor_node c resp s).auditor_score ≤ 35 := by
  unfold auditor_node
  cases hc : llm_audit_decision c resp s.bank_data with
  | none =>
    simp only []
    exact ruleBasedAuditScore_le35 hrev hnsf htcs
  | some r =>
    simp only []
    obtain ⟨l, rfl⟩ := llm_audit_some_inv hc
    have := auditHybridRecord_le s.bank_data l
    rw [auditBounds_noRev hrev] at this
    exact this

theorem compliance_node_deny {s : SparkState}
    (h : s.auditor_score.getD 0 < 40 ∨ 2 ≤ s.bank_data.nsf_count) :
    (compliance_node s).final_decision = Decision.DENY := by
  simp only [compliance_node]
  rw [if_pos h]

theorem compliance_node_cases (s : SparkState) :
    (compliance_node s).final_decision = Decision.APPROVE ∨
    (compliance_node s).final_decision = Decision.DENY ∨
    (compliance_node s).final_decision = Decision.REFER := by
  simp only [compliance_node]
  split_ifs <;> simp

theorem applyCoach_final (s : SparkState) :
    (applyCoach s).final_decision = s.final_decision := rfl

theorem applyCoach_score (s : SparkState) :
    (applyCoach s).auditor_score = s.auditor_score := rfl

theorem applyImpact_score (p : RunParams) (s : SparkState) :
    (applyImpact p s).auditor_score = s.auditor_score := rfl

theorem applyImpact_bank (p : RunParams) (s : SparkState) :
    (applyImpact p s).bank_data = s.bank_data := rfl

theorem graphS2_score (p : RunParams) (bd : BankData) (bp : BusinessProfile) :
    (graphS2 p bd bp).auditor_score = some (auditor_node p.gemini_client p.audit_resp (initState bd bp)).auditor_score := by
  unfold graphS2
  split
  · rw [applyImpact_score]
    rfl
  · rfl

theorem graphS2_bank (p : RunParams) (bd : BankData) (bp : BusinessProfile) :
    (graphS2 p bd bp).bank_data = bd := by
  unfold graphS2
  split
  · rw [applyImpact_bank]
    rfl
  · rfl

theorem runGraph_final (p : RunParams) (bd : BankData) (bp : BusinessProfile) :
    (runGraph p bd bp).final_decision
      = some (compliance_node (graphS2 p bd bp)).final_decision := by
  unfold runGraph
  split
  · rw [applyCoach_final]
    rfl
  · rfl

theorem runGraph_decision (p : RunParams) (bd : BankData) (bp : BusinessProfile) :
    ∃ d, (runGraph p bd bp).final_decision = some d ∧
      (d = Decision.APPROVE ∨ d = Decision.DENY ∨ d = Decision.REFER) := by
  refine ⟨(compliance_node (graphS2 p bd bp)).final_decision, runGraph_final p bd bp, ?_⟩
  cases (compliance_node (graphS2 p bd bp)).final_decision <;> simp

theorem ruleOverdrafts_denied (fin : FinancialResults) {a : Assessment}
    (h : a.eligibility = "denied") :
    (ruleOverdrafts fin a).eligibility = "denied" ∧
    (a.risk_level = "high" → (ruleOverdrafts fin a).risk_level = "high") := by
  unfold ruleOverdrafts
  split
  · exact ⟨by simp +decide [h], fun _ => rfl⟩
  · exact ⟨h, fun hr => hr⟩

theorem ruleIncomeStability_denied (fin : FinancialResults) {a : Assessment}
    (h : a.eligibility = "denied") :
    (ruleIncomeStability fin a).eligibility = "denied" ∧
    (a.risk_level = "high" → (ruleIncomeStability fin a).risk_level = "high") := by
  unfold ruleIncomeStability
  split
  · exact ⟨by simp +decide [h], fun _ => rfl⟩
  · exact ⟨h, fun hr => hr⟩

theorem ruleStrongApproval_denied (fin : FinancialResults) (mkt : MarketResults)
    {a : Assessment} (h : a.eligibility = "denied") :
    (ruleStrongApproval fin mkt a).eligibility = "denied" ∧
    (a.risk_level = "high" → (ruleStrongApproval fin mkt a).risk_level = "high") := by
  unfold ruleStrongApproval
  split
  · split
    · next hrev => rw [h] at hrev; exact absurd hrev (by decide)
    · exact ⟨h, fun hr => hr⟩
  · exact ⟨h, fun hr => hr⟩

theorem ruleDeniedNotLow_denied {a : Assessment} (h : a.eligibility = "denied") :
    (ruleDeniedNotLow a).eligibility = "denied" ∧
    (a.risk_level = "high" → (ruleDeniedNotLow a).risk_level = "high") := by
  unfold ruleDeniedNotLow
  split
  · exact ⟨h, fun _ => rfl⟩
  · exact ⟨h, fun hr => hr⟩

theorem ruleApprovedNotHigh_denied {a : Assessment} (h : a.eligibility = "denied") :
    (ruleApprovedNotHigh a).eligibility = "denied" ∧
    (a.risk_level = "high" → (ruleApprovedNotHigh a).risk_level = "high") := by
  unfold ruleApprovedNotHigh
  split
  · next hc => rw [h] at hc; exact absurd hc.1 (by decide)
  · exact ⟨h, fun hr => hr⟩

theorem rules_preserve_denied (fin : FinancialResults) (mkt : MarketResults)
    {a : Assessment} (h : a.eligibility = "denied") :
    (ruleApprovedNotHigh (ruleDeniedNotLow (ruleStrongApproval fin mkt
      (ruleIncomeStability fin (ruleOverdrafts fin a))))).eligibility = "denied" ∧
    (a.risk_level = "high" →
      (ruleApprovedNotHigh (ruleDeniedNotLow (ruleStrongApproval fin mkt
        (ruleIncomeStability fin (ruleOverdrafts fin a))))).risk_level = "high") := by
  obtain ⟨h2, r2⟩ := ruleOverdrafts_denied fin h
  obtain ⟨h3, r3⟩ := ruleIncomeStability_denied fin h2
  obtain ⟨h4, r4⟩ := ruleStrongApproval_denied fin mkt h3
  obtain ⟨h5, r5⟩ := ruleDeniedNotLow_denied h4
  obtain ⟨h6, r6⟩ := ruleApprovedNotHigh_denied h5
  exact ⟨h6, fun hr => r6 (r5 (r4 (r3 (r2 hr))))⟩

theorem ruleCriticalDTI_fires {fin : FinancialResults} (a : Assessment)
    (h : 60 < fin.debt_to_income) :
    (ruleCriticalDTI fin a).eligibility = "denied" ∧
    (ruleCriticalDTI fin a).risk_level = "high" := by
  unfold ruleCriticalDTI
  rw [if_pos h]
  exact ⟨rfl, rfl⟩

theorem applyBusinessRules_dti {fin : FinancialResults} (mkt : MarketResults)
    (a : Assessment) (h : 60 < fin.debt_to_income) :
    (applyBusinessRules fin mkt a).eligibility = "denied" ∧
    (applyBusinessRules fin mkt a).risk_level = "high" := by
  obtain ⟨he, hr⟩ := ruleCriticalDTI_fires a h
  obtain ⟨pe, pr⟩ := rules_preserve_denied fin mkt he
  exact ⟨pe, pr hr⟩

/-! ## Concrete example inputs for witnesses and counterexamples -/

/-- A profile hitting many multiplier factors: community cafe, hires
locally, no competitor within 10 miles. -/
def exRichBP : BusinessProfile :=
  { type := "cafe", nearest_competitor_miles := 20, hires_locally := true }

/-- Community metrics of a low-income food-desert area with a high
local hiring rate. -/
def exRichCM : CommunityMetrics :=
  { low_income_area := true, food_desert := true, local_hiring_rate := 7/10 }

/-- Bank data with no revenue history and an out-of-scale traditional
credit score. -/
def exNoRevBD : BankData := { traditional_credit_score := 3000 }

/-- Bank data with no revenue history and an in-scale credit score. -/
def exNoRevOkBD : BankData := { traditional_credit_score := 700 }

/-- Run parameters with the advisory client unavailable. -/
def exOffParams : RunParams :=
  { gemini_client := false, audit_resp := .err, geocode := none, community_metrics := {} }

/-- Run parameters with an unavailable advisory client but a
successful geocoder call. -/
def exGeoParams : RunParams :=
  { gemini_client := false, audit_resp := .err,
    geocode := some { lat := 436/10, lng := -794/10,
                      formatted_address := "123 Main St, Toronto, ON" },
    community_metrics := {} }

/-- A profile carrying only an address (no coordinates). -/
def exAddrBP : BusinessProfile := { address := some "123 Main St" }

/-- A profile already carrying user-selected coordinates. -/
def exCoordBP : BusinessProfile := { latitude := some 1, longitude := some 2 }

/-- A state reaching the APPROVE branch of `compliance_node`. -/
def exApproveState : SparkState :=
  { bank_data := {}, business_profile := {},
    auditor_score := some 80, community_multiplier := some 1 }

/-! ## Claims -/

/-- C1: for every input and every combination of stage failures, one
run of the assessment pipeline terminates and produces exactly one
decision record: `run_assessment` always returns a payload with a
populated `final_assessment`, and the community-spark graph always
reaches `compliance_node`, which writes `final_decision` exactly once
(it is absent before the compliance step, present and unchanged from
there to the end of the run) with a value in APPROVE/DENY/REFER. -/
theorem run_always_yields_one_decision :
    (∀ (finO : StageOutcome FinancialResults) (mktO : StageOutcome MarketResults)
        (proposal : StageOutcome AssessmentProposal) (coachO : StageOutcome (List String))
        (orchE : Option String),
        ∃ r, (run_assessment finO mktO proposal coachO orchE).final_assessment = some r)
    ∧ (∀ (p : RunParams) (bd : BankData) (bp : BusinessProfile),
        (graphS1 p bd bp).final_decision = none
        ∧ (graphS2 p bd bp).final_decision = none
        ∧ ∃ d, (graphS3 p bd bp).final_decision = some d
            ∧ (runGraph p bd bp).final_decision = some d
            ∧ (d = Decision.APPROVE ∨ d = Decision.DENY ∨ d = Decision.REFER)) := by
  constructor
  · intro finO mktO proposal coachO orchE
    cases orchE <;> exact ⟨_, rfl⟩
  · intro p bd bp
    refine ⟨rfl, ?_, ?_⟩
    · unfold graphS2
      split <;> rfl
    · refine ⟨(compliance_node (graphS2 p bd bp)).final_decision, rfl,
        runGraph_final p bd bp, compliance_node_cases (graphS2 p bd bp)⟩

/-- C4 counterexample: with the financial stage raising an exception
(replaced by its default fallback record) and every other stage
succeeding, the normal return path still reports top-level
`success = True` while the financial record itself has
`success = False` — matching the repository's own orchestrator test,
and contradicting the claim that the top-level flag is `True` only
when every stage succeeded. -/
theorem success_despite_fallback :
    (run_assessment (.exn "Plaid error") (.ok { success := true, viability_score := 70 })
        (.ok {}) (.ok []) none).success = true
    ∧ (run_assessment (.exn "Plaid error") (.ok { success := true, viability_score := 70 })
        (.ok {}) (.ok []) none).financial_metrics.success = false :=
  ⟨rfl, rfl⟩

/-- C4 (amended): on the normal return path the top-level `success`
field is always `True`, regardless of which stages fell back to their
defaults; it is `False` exactly when an orchestration-level exception
reaches the outer handler.  Per-stage success lives in each stage's
own record. -/
theorem success_flag_semantics :
    (∀ (finO : StageOutcome FinancialResults) (mktO : StageOutcome MarketResults)
        (proposal : StageOutcome AssessmentProposal) (coachO : StageOutcome (List String)),
        (run_assessment finO mktO proposal coachO none).success = true)
    ∧ (∀ (finO : StageOutcome FinancialResults) (mktO : StageOutcome MarketResults)
        (proposal : StageOutcome AssessmentProposal) (coachO : StageOutcome (List String))
        (e : String),
        (run_assessment finO mktO proposal coachO (some e)).success = false) :=
  ⟨fun _ _ _ _ => rfl, fun _ _ _ _ _ => rfl⟩

/-- C9: when the advisory client is unavailable, `llm_audit_decision`
returns `None` for every `bank_data`, `auditor_node` takes the
rule-based fallback whose trace entry records `method = "rule-based"`
and whose score lies in `[1, 100]`, and the graph run still completes
with a valid final decision. -/
theorem advisory_unavailable_fallback :
    (∀ (resp : LLMResponse ℤ) (bd : BankData), llm_audit_decision false resp bd = none)
    ∧ (∀ (resp : LLMResponse ℤ) (s : SparkState),
        (auditor_node false resp s).auditor_score = ruleBasedAuditScore s.bank_data
        ∧ 1 ≤ (auditor_node false resp s).auditor_score
        ∧ (auditor_node false resp s).auditor_score ≤ 100
        ∧ (auditor_node false resp s).log = s.log ++
            [{ agent := "auditor", step := "audit_complete",
               method := some "rule-based",
               decision := some (ruleBasedAuditScore s.bank_data) }])
    ∧ (∀ (resp : LLMResponse ℤ) (geo : Option GeoResult) (cm : CommunityMetrics)
        (bd : BankData) (bp : BusinessProfile),
        ∃ d, (runGraph { gemini_client := false, audit_resp := resp, geocode := geo,
                         community_metrics := cm } bd bp).final_decision = some d
          ∧ (d = Decision.APPROVE ∨ d = Decision.DENY ∨ d = Decision.REFER)) := by
  refine ⟨fun resp bd => rfl, ?_, ?_⟩
  · intro resp s
    exact ⟨rfl, (ruleBasedAuditScore_mem s.bank_data).1,
      (ruleBasedAuditScore_mem s.bank_data).2, rfl⟩
  · intro resp geo cm bd bp
    exact runGraph_decision _ bd bp

theorem one_le_ite_add {c : Prop} [Decidable c] {m x : ℚ} (h : 1 ≤ m) (hx : 0 ≤ x) :
    1 ≤ if c then m + x else m := by
  split
  · linarith
  · exact h

theorem one_le_ite3 {c c' : Prop} [Decidable c] [Decidable c'] {m x y : ℚ}
    (h : 1 ≤ m) (hx : 0 ≤ x) (hy : 0 ≤ y) :
    1 ≤ if c then m + x else if c' then m + y else m := by
  split
  · linarith
  · split
    · linarith
    · exact h

theorem impactBase_ge_one (bp : BusinessProfile) (cm : CommunityMetrics) :
    1 ≤ impactBase bp cm := by
  simp only [impactBase]
  exact one_le_ite3
    (one_le_ite_add
      (one_le_ite_add
        (one_le_ite_add
          (one_le_ite_add
            (one_le_ite_add
              (one_le_ite_add le_rfl (by norm_num))
              (by norm_num))
            (by norm_num))
          (by norm_num))
        (by norm_num))
      (by norm_num))
    (by norm_num) (by norm_num)

/-- C2 counterexample: at a profile whose deterministic base multiplier
is 1.75, the bounds invert (min 1.65 > max 1.6) and the clamp of
`llm_impact_decision` returns 1.65, strictly above the deterministic
`max_multiplier`, even though the advisory model proposed 1.5. -/
theorem hybrid_clamp_violation :
    (llm_impact_decision true false (LLMResponse.value (3/2)) exRichBP exRichCM).map
        ImpactResult.community_multiplier = some (33/20)
    ∧ (impactBounds exRichBP exRichCM).2 = 8/5
    ∧ ¬ ((33/20 : ℚ) ≤ 8/5) := by
  refine ⟨?_, ?_, by norm_num⟩
  · simp only [llm_impact_decision, impactHybridRecord, impactBounds, impactBase,
      exRichBP, exRichCM]
    norm_num [anyTypeMatch, gemGroceryTypes, gemPharmacyTypes, strContains,
      listContains, round2, pyRound, Option.map]
  · simp only [impactBounds, impactBase, exRichBP, exRichCM]
    norm_num [anyTypeMatch, gemGroceryTypes, gemPharmacyTypes, strContains, listContains]

/-- C2 (amended): every audit score returned by `llm_audit_decision`
lies within its deterministic bounds; the multiplier returned by
`llm_impact_decision` is always at least `min_multiplier`, and is at
most `max_multiplier` whenever the bounds are consistent
(`min_multiplier ≤ max_multiplier`) — when the bounds invert, the
clamp `max(min, min(max, llm))` returns `min`, which exceeds `max`. -/
theorem hybrid_scores_clamped :
    (∀ (c : Bool) (resp : LLMResponse ℤ) (bd : BankData) (r : AuditResult),
        llm_audit_decision c resp bd = some r →
        (auditBounds bd).1 ≤ r.auditor_score ∧ r.auditor_score ≤ (auditBounds bd).2)
    ∧ (∀ (c m : Bool) (resp : LLMResponse ℚ) (bp : BusinessProfile)
        (cm : CommunityMetrics) (r : ImpactResult),
        llm_impact_decision c m resp bp cm = some r →
        (impactBounds bp cm).1 ≤ r.community_multiplier
        ∧ ((impactBounds bp cm).1 ≤ (impactBounds bp cm).2 →
            r.community_multiplier ≤ (impactBounds bp cm).2)) := by
  constructor
  · intro c resp bd r h
    obtain ⟨l, rfl⟩ := llm_audit_some_inv h
    exact ⟨auditHybridRecord_ge bd l, auditHybridRecord_le bd l⟩
  · intro c m resp bp cm r h
    obtain ⟨l, rfl⟩ := llm_impact_some_inv h
    exact ⟨impactHybrid_ge bp cm l, fun hb => impactHybrid_le bp cm l hb⟩

/-- C2 witness: the clamp bounds hold at concrete inputs on both the
audit path (advisory proposes 200, clamped into the no-revenue band)
and the impact path (advisory proposes 1.5 on a default profile). -/
theorem hybrid_scores_clamped_witness :
    ((auditBounds {}).1 ≤ (auditHybridRecord {} 200).auditor_score
      ∧ (auditHybridRecord {} 200).auditor_score ≤ (auditBounds {}).2)
    ∧ ((impactBounds {} {}).1 ≤ (impactHybridRecord {} {} (3/2)).community_multiplier
      ∧ (impactHybridRecord {} {} (3/2)).community_multiplier ≤ (impactBounds {} {}).2) := by
  have ha := hybrid_scores_clamped.1 true (.value 200) {} (auditHybridRecord {} 200) rfl
  have hi := hybrid_scores_clamped.2 true false (.value (3/2)) {} {}
    (impactHybridRecord {} {} (3/2)) rfl
  refine ⟨ha, hi.1, hi.2 ?_⟩
  simp only [impactBounds, impactBase]
  norm_num [anyTypeMatch, gemGroceryTypes, gemPharmacyTypes, strContains, listContains]

/-- C3 counterexample: at a profile whose base multiplier is 1.75, the
multiplier bounds of `llm_impact_decision` are (1.65, 1.6), violating
`min ≤ max`. -/
theorem bounds_inverted :
    (impactBounds exRichBP exRichCM).1 = 33/20
    ∧ (impactBounds exRichBP exRichCM).2 = 8/5
    ∧ ¬ ((impactBounds exRichBP exRichCM).1 ≤ (impactBounds exRichBP exRichCM).2) := by
  have h : impactBounds exRichBP exRichCM = (33/20, 8/5) := by
    simp only [impactBounds, impactBase, exRichBP, exRichCM]
    norm_num [anyTypeMatch, gemGroceryTypes, gemPharmacyTypes, strContains, listContains]
  rw [h]
  norm_num

/-- C3 (amended): the audit score bounds always satisfy `min ≤ max`;
the multiplier bounds satisfy `min ≤ max` exactly when the
deterministic base multiplier is at most 1.7 (above that,
`min = base - 0.1` exceeds the cap `max = 1.6`). -/
theorem score_bounds_ordered :
    (∀ bd : BankData, (auditBounds bd).1 ≤ (auditBounds bd).2)
    ∧ (∀ (bp : BusinessProfile) (cm : CommunityMetrics),
        impactBase bp cm ≤ 17/10 →
        (impactBounds bp cm).1 ≤ (impactBounds bp cm).2) := by
  refine ⟨auditBounds_le, ?_⟩
  intro bp cm h
  have hbase := impactBase_ge_one bp cm
  unfold impactBounds
  apply max_le
  · apply le_min
    · norm_num
    · linarith
  · apply le_min
    · linarith
    · linarith

/-- C3 witness: the ordered-bounds statements at concrete inputs (the
default profile has base multiplier 1.15 ≤ 1.7). -/
theorem score_bounds_ordered_witness :
    (auditBounds {}).1 ≤ (auditBounds {}).2
    ∧ (impactBounds {} {}).1 ≤ (impactBounds {} {}).2 := by
  refine ⟨score_bounds_ordered.1 {}, score_bounds_ordered.2 {} {} ?_⟩
  simp only [impactBase]
  norm_num [anyTypeMatch, gemGroceryTypes, gemPharmacyTypes, strContains, listContains]

/-- C5: policy monotonicity — in `_apply_business_rules`, once the
critical rejection rule has set eligibility to `denied`, no later rule
produces `approved` (the full chain still ends at `denied`); in
`compliance_node`, once the hard-denial guardrail fires, the APPROVE
branch is not taken (the decision is DENY). -/
theorem policy_deny_monotonic :
    (∀ (fin : FinancialResults) (mkt : MarketResults) (a : Assessment),
        (ruleCriticalDTI fin a).eligibility = "denied" →
        (applyBusinessRules fin mkt a).eligibility = "denied"
        ∧ (applyBusinessRules fin mkt a).eligibility ≠ "approved")
    ∧ (∀ s : SparkState,
        (s.auditor_score.getD 0 < 40 ∨ 2 ≤ s.bank_data.nsf_count) →
        (compliance_node s).final_decision = Decision.DENY
        ∧ (compliance_node s).final_decision ≠ Decision.APPROVE) := by
  constructor
  · intro fin mkt a h
    have hd := (rules_preserve_denied fin mkt h).1
    have hd' : (applyBusinessRules fin mkt a).eligibility = "denied" := hd
    refine ⟨hd', ?_⟩
    rw [hd']
    decide
  · intro s h
    have hd := compliance_node_deny h
    refine ⟨hd, ?_⟩
    rw [hd]
    decide

/-- Financial record with DTI above the critical threshold. -/
def exDTIFin : FinancialResults := { success := true, debt_to_income := 70 }

/-- A healthy market record. -/
def exMkt : MarketResults := { success := true, viability_score := 80 }

/-- An advisory-proposed assessment of approved/low risk. -/
def exApprovedAssessment : Assessment :=
  { eligibility := "approved", confidence_score := 90, risk_level := "low",
    reasoning := "ok", recommendations := [],
    key_factors := { financial_score := 80, market_score := 80, overall_score := 80 } }

/-- An advisory proposal of approved/low risk. -/
def exApprovedProposal : AssessmentProposal :=
  { eligibility := some "approved", risk_level := some "low" }

/-- A state whose auditor score is below the hard-denial floor. -/
def exDenyState : SparkState :=
  { bank_data := {}, business_profile := {}, auditor_score := some 30 }

/-- C5 witness: with DTI 70 the critical rule fires and the full chain
stays at `denied` even though the advisory model proposed `approved`;
with auditor score 30 the guardrail fires and the decision is DENY. -/
theorem policy_deny_monotonic_witness :
    (applyBusinessRules exDTIFin exMkt exApprovedAssessment).eligibility = "denied"
    ∧ (compliance_node exDenyState).final_decision = Decision.DENY := by
  constructor
  · exact (policy_deny_monotonic.1 exDTIFin exMkt exApprovedAssessment
      (by simp only [ruleCriticalDTI, exDTIFin]; norm_num)).1
  · exact (policy_deny_monotonic.2 exDenyState (by norm_num [exDenyState])).1

/-- C7: whenever the financial analysis reports a debt-to-income ratio
above 60, `assess` on the rule-validation path returns eligibility
`denied` with risk level `high`, regardless of the assessment the
advisory model proposed. -/
theorem critical_dti_denies (p : AssessmentProposal) (fin : FinancialResults)
    (mkt : MarketResults) (h : 60 < fin.debt_to_income) :
    (assess (.ok p) fin mkt).assessment.eligibility = "denied"
    ∧ (assess (.ok p) fin mkt).assessment.risk_level = "high"
    ∧ (assess (.ok p) fin mkt).success = true := by
  unfold assess
  obtain ⟨he, hr⟩ := applyBusinessRules_dti mkt
    (validateAssessment p fin mkt) h
  exact ⟨he, hr, rfl⟩

/-- C7 witness: concrete DTI 70 with an advisory proposal of
`approved`/`low` still yields `denied`/`high`. -/
theorem critical_dti_denies_witness :
    (assess (.ok exApprovedProposal) exDTIFin exMkt).assessment.eligibility = "denied"
    ∧ (assess (.ok exApprovedProposal) exDTIFin exMkt).assessment.risk_level = "high" := by
  have h := critical_dti_denies exApprovedProposal exDTIFin exMkt
    (by norm_num [exDTIFin])
  exact ⟨h.1, h.2.1⟩

/-- C6 counterexample: a no-revenue input whose (out-of-scale)
traditional credit score is 3000 gets rule-based fallback score 100,
not at most 35, and the graph run ends in APPROVE — refuting the claim
as stated for arbitrary inputs. -/
theorem no_revenue_approval :
    rbNoRev exNoRevBD
    ∧ ruleBasedAuditScore exNoRevBD = 100
    ∧ ¬ (ruleBasedAuditScore exNoRevBD ≤ 35)
    ∧ (runGraph exOffParams exNoRevBD {}).final_decision = some Decision.APPROVE := by
  have hscore : ruleBasedAuditScore exNoRevBD = 100 := by
    simp only [ruleBasedAuditScore, rbBaseScore, rbRevenueScore, rbVolatilityScore,
      rbNsfPenalty, rbDtiPenalty, rbNoRev, exNoRevBD]
    norm_num [pyInt]
  refine ⟨Or.inl rfl, hscore, by rw [hscore]; decide, ?_⟩
  simp only [runGraph, graphS3, graphS2, graphS1, applyAuditor, applyImpact,
    applyCompliance, applyCoach, initState, auditor_node, llm_audit_decision,
    route_after_auditor, route_after_compliance, compliance_node, coach_node,
    exOffParams, hscore]
  norm_num [Decision.str]
  simp +decide

/-- C6 (amended): for every no-revenue input whose `nsf_count` is
nonnegative and whose traditional credit score is within the 850
scale, the deterministic audit bounds are the low band [1, 35], every
hybrid audit score is at most 35, the rule-based fallback score is at
most 35, and the graph run always ends in DENY (hence never APPROVE).
Without the credit-score hypothesis the fallback score can exceed the
band (see the counterexample). -/
theorem no_revenue_low_band (bd : BankData) (hrev : rbNoRev bd)
    (hnsf : 0 ≤ bd.nsf_count) (htcs : bd.traditional_credit_score ≤ 850) :
    auditBounds bd = (1, 35)
    ∧ (∀ (c : Bool) (resp : LLMResponse ℤ) (r : AuditResult),
        llm_audit_decision c resp bd = some r → r.auditor_score ≤ 35)
    ∧ ruleBasedAuditScore bd ≤ 35
    ∧ ∀ (p : RunParams) (bp : BusinessProfile),
        (runGraph p bd bp).final_decision = some Decision.DENY := by
  refine ⟨auditBounds_noRev hrev, ?_, ruleBasedAuditScore_le35 hrev hnsf htcs, ?_⟩
  · intro c resp r h
    obtain ⟨l, rfl⟩ := llm_audit_some_inv h
    have hle := auditHybridRecord_le bd l
    rw [auditBounds_noRev hrev] at hle
    exact hle
  · intro p bp
    have h35 : (auditor_node p.gemini_client p.audit_resp (initState bd bp)).auditor_score ≤ 35 :=
      auditor_node_score_le35 hrev hnsf htcs
    have hlt : (graphS2 p bd bp).auditor_score.getD 0 < 40 := by
      rw [graphS2_score]
      simp only [Option.getD_some]
      omega
    rw [runGraph_final, compliance_node_deny (Or.inl hlt)]

/-- C6 witness: a concrete no-revenue input with credit score 700 has
bounds (1, 35), fallback score at most 35, and its run is denied. -/
theorem no_revenue_low_band_witness :
    auditBounds exNoRevOkBD = (1, 35)
    ∧ ruleBasedAuditScore exNoRevOkBD ≤ 35
    ∧ (runGraph exOffParams exNoRevOkBD {}).final_decision = some Decision.DENY := by
  have h := no_revenue_low_band exNoRevOkBD (Or.inl rfl) (by decide) (by decide)
  exact ⟨h.1, h.2.2.1, h.2.2.2 exOffParams {}⟩

theorem applyImpact_profile (p : RunParams) (s : SparkState) :
    (applyImpact p s).business_profile
      = (impact_node p.geocode p.community_metrics s).business_profile := rfl

theorem impact_node_profile (geocode : Option GeoResult) (cm : CommunityMetrics)
    (s : SparkState) :
    (impact_node geocode cm s).business_profile =
      if s.business_profile.latitude.isSome && s.business_profile.longitude.isSome
      then s.business_profile
      else
        match s.business_profile.address, geocode with
        | some _, some g =>
          { s.business_profile with latitude := some g.lat, longitude := some g.lng,
                                    formatted_address := some g.formatted_address }
        | _, _ => s.business_profile := rfl

/-- C8 counterexample: on a state whose profile carries only an
address, a successful geocoder call makes `impact_node` hand back a
`business_profile` different from the input one (geocoded coordinates
added), so the input namespace is overwritten. -/
theorem profile_overwritten :
    (applyImpact exGeoParams (initState {} exAddrBP)).business_profile
      ≠ (initState {} exAddrBP).business_profile := by
  intro h
  have h2 := congrArg BusinessProfile.latitude h
  have hl : (applyImpact exGeoParams (initState {} exAddrBP)).business_profile.latitude
      = some ((436 : ℚ)/10) := rfl
  have hr : (initState {} exAddrBP).business_profile.latitude = (none : Option ℚ) := rfl
  rw [hl, hr] at h2
  exact Option.noConfusion h2

/-- C8 (amended): every node leaves `bank_data` unchanged and writes
only its own output keys — `auditor_node` and `coach_node` never touch
earlier namespaces, `compliance_node` leaves the profile and all
auditor/impact outputs unchanged — with the single exception that
`impact_node` also returns `business_profile`: that namespace is
returned unchanged when coordinates are already present, when the
geocoder is not consulted or fails, or when there is no address, but
is overwritten with added coordinates on a successful geocode of an
address-only profile (see the counterexample). -/
theorem node_frame_conditions (p : RunParams) (s : SparkState) :
    (applyAuditor p s).bank_data = s.bank_data
    ∧ (applyAuditor p s).business_profile = s.business_profile
    ∧ (applyImpact p s).bank_data = s.bank_data
    ∧ (applyImpact p s).auditor_score = s.auditor_score
    ∧ (applyImpact p s).auditor_flags = s.auditor_flags
    ∧ (applyCompliance s).bank_data = s.bank_data
    ∧ (applyCompliance s).business_profile = s.business_profile
    ∧ (applyCompliance s).auditor_score = s.auditor_score
    ∧ (applyCompliance s).auditor_flags = s.auditor_flags
    ∧ (applyCompliance s).community_multiplier = s.community_multiplier
    ∧ (applyCoach s).bank_data = s.bank_data
    ∧ (applyCoach s).business_profile = s.business_profile
    ∧ (applyCoach s).auditor_score = s.auditor_score
    ∧ (applyCoach s).community_multiplier = s.community_multiplier
    ∧ (applyCoach s).final_decision = s.final_decision
    ∧ (applyCoach s).loan_terms = s.loan_terms
    ∧ (s.business_profile.latitude.isSome ∧ s.business_profile.longitude.isSome →
        (applyImpact p s).business_profile = s.business_profile)
    ∧ (p.geocode = none → (applyImpact p s).business_profile = s.business_profile)
    ∧ (s.business_profile.address = none →
        (applyImpact p s).business_profile = s.business_profile) := by
  refine ⟨rfl, rfl, rfl, rfl, rfl, rfl, rfl, rfl, rfl, rfl, rfl, rfl, rfl, rfl, rfl, rfl,
    ?_, ?_, ?_⟩
  · intro ⟨h1, h2⟩
    rw [applyImpact_profile, impact_node_profile, if_pos (by rw [h1, h2]; rfl)]
  · intro hg
    rw [applyImpact_profile, impact_node_profile, hg]
    split
    · rfl
    · cases s.business_profile.address <;> rfl
  · intro ha
    rw [applyImpact_profile, impact_node_profile, ha]
    split
    · rfl
    · cases p.geocode <;> rfl

/-- C8 witness: with user-selected coordinates present the profile is
returned unchanged even when a geocoder result exists, and with no
geocoder call it is returned unchanged. -/
theorem node_frame_conditions_witness :
    (applyImpact exGeoParams (initState {} exCoordBP)).business_profile
        = (initState {} exCoordBP).business_profile
    ∧ (applyImpact exOffParams (initState {} exAddrBP)).business_profile
        = (initState {} exAddrBP).business_profile := by
  constructor
  · obtain ⟨_, _, _, _, _, _, _, _, _, _, _, _, _, _, _, _, hc, _, _⟩ :=
      node_frame_conditions exGeoParams (initState {} exCoordBP)
    exact hc ⟨rfl, rfl⟩
  · obtain ⟨_, _, _, _, _, _, _, _, _, _, _, _, _, _, _, _, _, hg, _⟩ :=
      node_frame_conditions exOffParams (initState {} exAddrBP)
    exact hg rfl

theorem approveLoanTerms_bounds (adj rev : ℚ) :
    10000 ≤ (approveLoanTerms adj rev).loan_amount
    ∧ (approveLoanTerms adj rev).loan_amount ≤ 100000
    ∧ (approveLoanTerms adj rev).term_months = 36 := by
  simp only [approveLoanTerms]
  refine ⟨?_, ?_, trivial⟩
  · apply le_pyInt
    split
    · push_cast
      exact le_max_left _ _
    · norm_num
  · apply pyInt_le
    split
    · push_cast
      exact max_le (by norm_num) (le_trans (min_le_left _ _) (by norm_num))
    · norm_num

/-- C10: `compliance_node` returns `loan_terms = None` exactly when the
decision is DENY or REFER, and a fully populated loan-terms record with
`loan_amount` between 10000 and 100000 and a 36-month term exactly when
the decision is APPROVE. -/
theorem loan_terms_iff_approval (s : SparkState) :
    ((compliance_node s).loan_terms = none ↔
      ((compliance_node s).final_decision = Decision.DENY
        ∨ (compliance_node s).final_decision = Decision.REFER))
    ∧ ((compliance_node s).final_decision = Decision.APPROVE →
        ∃ lt, (compliance_node s).loan_terms = some lt
          ∧ 10000 ≤ lt.loan_amount ∧ lt.loan_amount ≤ 100000 ∧ lt.term_months = 36) := by
  simp only [compliance_node]
  split_ifs with h1 h2
  · constructor
    · simp
    · intro hc
      simp at hc
  · constructor
    · simp
    · intro _
      exact ⟨_, rfl, (approveLoanTerms_bounds _ _).1, (approveLoanTerms_bounds _ _).2.1,
        (approveLoanTerms_bounds _ _).2.2⟩
  · constructor
    · simp
    · intro hc
      simp at hc

/-- C10 witness: a concrete approving state (auditor score 80,
multiplier 1) yields APPROVE with populated, in-range loan terms. -/
theorem loan_terms_iff_approval_witness :
    (compliance_node exApproveState).final_decision = Decision.APPROVE
    ∧ ∃ lt, (compliance_node exApproveState).loan_terms = some lt
        ∧ 10000 ≤ lt.loan_amount ∧ lt.loan_amount ≤ 100000 ∧ lt.term_months = 36 := by
  have happ : (compliance_node exApproveState).final_decision = Decision.APPROVE := by
    simp only [compliance_node, exApproveState]
    norm_num
  exact ⟨happ, (loan_terms_iff_approval exApproveState).2 happ⟩
